import Mathlib

/-!
Verification development for the `rag_langchain_v1` ingestion core.

The Python sources are shallowly embedded: pure helpers become Lean
functions; calls into external libraries (PyMuPDF, pypdf, docx2txt,
markdown/bs4, langchain's text splitter, the Qdrant client) are modelled as
explicit inputs describing the data those calls returned, or as `Except`
values when the call may raise.  Python exceptions are modelled with
`Except String`; Python floats with `ℚ` (the constants involved are exact);
Python `str` with Lean `String` (character-class predicates such as
`isalpha`/`lower` are ASCII approximations of Python's Unicode versions,
which is irrelevant for every property proved here).
-/

namespace RagV1

/-! ## Python string primitives -/

/-- Python's substring test `needle in hay` on lists of characters. -/
def infixB (n : List Char) : List Char → Bool
  | [] => n.isEmpty
  | c :: rest => n.isPrefixOf (c :: rest) || infixB n rest

/-- Python's substring test `needle in hay`. -/
def substrB (needle hay : String) : Bool := infixB needle.toList hay.toList



/-- Python's `str.count` (greedy non-overlapping, left to right), on character
lists, with an explicit skip counter so that the recursion is structural.
`skip = k` means the scanner is still skipping the `k` final characters of the
previous match.  Faithful to Python for a non-empty needle (the sources only
count non-empty needles). -/
def pyCountAux (needle : List Char) : List Char → Nat → Nat
  | [], _ => 0
  | c :: rest, 0 =>
    if needle.isPrefixOf (c :: rest) then pyCountAux needle rest (needle.length - 1) + 1
    else pyCountAux needle rest 0
  | _ :: rest, skip + 1 => pyCountAux needle rest skip

/-- Python's `str.count` for a non-empty needle, on character lists. -/
def pyCountList (needle hay : List Char) : Nat := pyCountAux needle hay 0

/-- Python's `str.count` for a non-empty needle. -/
def pyCount (needle hay : String) : Nat := pyCountList needle.toList hay.toList




/-- Embeds `bool(s.strip()) == False`: the string is empty or all whitespace. -/
def pyBlank (s : String) : Bool := s.toList.all (fun c => c.isWhitespace)

/-- Python's `s.split(sep)` for a one-character separator: splits at every
occurrence, keeping empty pieces. -/
def splitCharAux (sep : Char) : List Char → List Char → List (List Char)
  | [], acc => [acc.reverse]
  | c :: rest, acc =>
    if c = sep then acc.reverse :: splitCharAux sep rest []
    else splitCharAux sep rest (c :: acc)

def pySplitChar (sep : Char) (s : String) : List String :=
  (splitCharAux sep s.toList []).map (fun cs => ⟨cs⟩)

/-- Python's `s.split("\n\n")` (greedy left-to-right, keeping empty pieces). -/
def splitNNAux : List Char → List Char → List (List Char)
  | '\n' :: '\n' :: rest, acc => acc.reverse :: splitNNAux rest []
  | c :: rest, acc => splitNNAux rest (c :: acc)
  | [], acc => [acc.reverse]

def pySplitNN (s : String) : List String := (splitNNAux s.toList []).map (fun cs => ⟨cs⟩)

/-- Helper for Python's no-argument `s.split()`: collect maximal non-whitespace
runs. -/
def wordsAux : List Char → List Char → List (List Char)
  | [], acc => if acc = [] then [] else [acc.reverse]
  | c :: rest, acc =>
    if c.isWhitespace then
      if acc = [] then wordsAux rest [] else acc.reverse :: wordsAux rest []
    else wordsAux rest (c :: acc)

/-- Python's no-argument `s.split()`: whitespace runs as separators, no empty
pieces. -/
def pyWords (s : String) : List String :=
  (wordsAux s.toList []).map (fun cs => ⟨cs⟩)

/-- Python's `str.lower` (ASCII; the sources lower-case only filename
extensions). -/
def pyLower (s : String) : String := ⟨s.toList.map Char.toLower⟩

/-- Index of the last occurrence of `c` (Python's `str.rfind`, `none` for -1). -/
def rfindIdx (c : Char) : List Char → Option Nat
  | [] => none
  | x :: xs =>
    match rfindIdx c xs with
    | some j => some (j + 1)
    | none => if x = c then some 0 else none

/-- Embeds `os.path.splitext(p)[1]` (posix): the extension including its dot, or `""`;
leading dots of the basename do not start an extension. -/
def pySplitextExt (p : String) : String :=
  let cs := p.toList
  let sepIndex : Int := match rfindIdx '/' cs with | some i => (i : Int) | none => -1
  let dotIndex : Int := match rfindIdx '.' cs with | some i => (i : Int) | none => -1
  if sepIndex < dotIndex then
    let start := (sepIndex + 1).toNat
    let stop := dotIndex.toNat
    if ((cs.drop start).take (stop - start)).any (fun ch => ch ≠ '.') then
      ⟨cs.drop stop⟩
    else ""
  else ""

/-- Embeds `pathlib.PurePath(p).name`: the final path component. -/
def pathName (p : String) : String :=
  match rfindIdx '/' p.toList with
  | none => p
  | some i => ⟨p.toList.drop (i + 1)⟩

/-- Embeds `pathlib.PurePath(p).stem`: the final component without its suffix
(`suffix` exists when the last dot of the name is neither first nor last). -/
def pathStem (p : String) : String :=
  let name := (pathName p).toList
  match rfindIdx '.' name with
  | some i => if 0 < i ∧ i < name.length - 1 then ⟨name.take i⟩ else ⟨name⟩
  | none => ⟨name⟩

/-! ## Advanced PDF extraction (`utils/file_processors.py: read_pdf_with_images`)

The PyMuPDF (`fitz`) and pandas calls are external; a `PdfPage` records what
those calls returned for one page: for each candidate of `page.find_tables()`
whether `table.extract()` raised, how many rows it produced, and whether the
cleaned DataFrame was non-empty; the page's `get_text()` result; and for each
entry of `page.get_images()` the pixmap's `n` and `alpha`.  A run in which
some call raised out of the whole function is modelled at the caller
(`Except`/`Option` inputs there). -/

structure PageTable where
  raises : Bool
  rows : Nat
  dfNonempty : Bool
deriving DecidableEq, Repr

structure PageImage where
  n : Nat
  alpha : Nat
deriving DecidableEq, Repr

structure PdfPage where
  tables : List PageTable
  text : String
  images : List PageImage
deriving DecidableEq, Repr

/-- One entry of `tables_data` (the `DataFrame` and `bbox` payloads live in
external objects and are not inspected by any embedded code). -/
structure TableRec where
  page : Nat
  table_index : Nat
deriving DecidableEq, Repr

/-- Embeds `table_data and len(table_data) > 1` and `not df.empty`, with no raise. -/
def tableEmits (t : PageTable) : Bool := !t.raises && decide (1 < t.rows) && t.dfNonempty

/-- The inline back-reference text appended for an extracted table:
`f"[Trang {page_num + 1}] Bảng {table_index + 1}: {filename}_page{page_num + 1}_table{table_index + 1}"`. -/
def tableToken (filename : String) (pageNum tableIndex : Nat) : String :=
  "[Trang " ++ toString (pageNum + 1) ++ "] Bảng " ++ toString (tableIndex + 1) ++ ": " ++
    filename ++ "_page" ++ toString (pageNum + 1) ++ "_table" ++ toString (tableIndex + 1)

/-- Embeds `f"{Path(filename).stem}_page{page_num + 1}_img{img_index + 1}.png"`. -/
def imageName (filename : String) (pageNum imgIndex : Nat) : String :=
  pathStem filename ++ "_page" ++ toString (pageNum + 1) ++ "_img" ++ toString (imgIndex + 1)
    ++ ".png"

/-- Embeds `f"[Trang {page_num + 1}] Hình ảnh: {img_filename}"`. -/
def imageToken (pageNum : Nat) (imgName : String) : String :=
  "[Trang " ++ toString (pageNum + 1) ++ "] Hình ảnh: " ++ imgName

/-- Embeds `f"[Trang {page_num + 1}]\n{text}"`. -/
def pageTextEntry (pageNum : Nat) (text : String) : String :=
  "[Trang " ++ toString (pageNum + 1) ++ "]\n" ++ text

/-- The `for table_index, table in enumerate(tables)` loop: appended text
entries and `tables_data` records, in order. -/
def tablesLoop (filename : String) (pageNum : Nat) :
    Nat → List PageTable → List String × List TableRec
  | _, [] => ([], [])
  | ti, t :: rest =>
    let r := tablesLoop filename pageNum (ti + 1) rest
    if tableEmits t then (tableToken filename pageNum ti :: r.1, ⟨pageNum + 1, ti⟩ :: r.2)
    else r

/-- Embeds `pix.n - pix.alpha < 4` (GRAY or RGB: the image is saved). -/
def imageSaved (im : PageImage) : Bool := decide ((im.n : Int) - (im.alpha : Int) < 4)

/-- The `for img_index, img in enumerate(image_list)` loop: appended text
entries and `image_paths`, in order. -/
def imagesLoop (filename : String) (pageNum : Nat) :
    Nat → List PageImage → List String × List String
  | _, [] => ([], [])
  | ii, im :: rest =>
    let r := imagesLoop filename pageNum (ii + 1) rest
    if imageSaved im then
      (imageToken pageNum (imageName filename pageNum ii) :: r.1,
        ("extracted_images/" ++ imageName filename pageNum ii) :: r.2)
    else r

/-- One iteration of the page loop: table tokens first, then the page text
entry when `text.strip()` is non-empty, then image tokens. -/
def pageEntries (filename : String) (pageNum : Nat) (pg : PdfPage) :
    List String × List String × List TableRec :=
  let t := tablesLoop filename pageNum 0 pg.tables
  let textE : List String := if pyBlank pg.text then [] else [pageTextEntry pageNum pg.text]
  let im := imagesLoop filename pageNum 0 pg.images
  (t.1 ++ textE ++ im.1, im.2, t.2)

/-- The `for page_num in range(doc.page_count)` loop, accumulating
`texts`, `image_paths` and `tables_data` in page order. -/
def extractPages (filename : String) : Nat → List PdfPage → List String × List String × List TableRec
  | _, [] => ([], [], [])
  | pn, pg :: rest =>
    let h := pageEntries filename pn pg
    let t := extractPages filename (pn + 1) rest
    (h.1 ++ t.1, h.2.1 ++ t.2.1, h.2.2 ++ t.2.2)

/-- Python's `sep.join(texts)`. -/
def pyJoin (sep : String) : List String → String
  | [] => ""
  | [x] => x
  | x :: y :: rest => x ++ sep ++ pyJoin sep (y :: rest)

/-- Embeds `read_pdf_with_images(file_bytes, filename)` for a run without raises:
`("\n\n".join(texts), image_paths, tables_data)`. -/
def read_pdf_with_images (filename : String) (doc : List PdfPage) :
    String × List String × List TableRec :=
  let r := extractPages filename 0 doc
  (pyJoin "\n\n" r.1, r.2.1, r.2.2)

/-! ## Chunk linking and `services/ingestion.py: load_and_split` -/

/-- Chunk metadata: `{"source": filename, "chunk": i}` plus the `images` /
`tables` keys; in Python those two keys are present only when non-empty, which
is modelled by the list being non-empty. -/
structure ChunkMeta where
  source : String
  chunk : Nat
  images : List String
  tables : List TableRec
deriving DecidableEq, Repr

structure ChunkRec where
  content : String
  metadata : ChunkMeta
deriving DecidableEq, Repr

/-- Embeds `table_ref = f"{Path(filename).stem}_page{table_dict['page']}_table{table_dict['table_index'] + 1}"` -/
def tableRef (filename : String) (td : TableRec) : String :=
  pathStem filename ++ "_page" ++ toString td.page ++ "_table" ++ toString (td.table_index + 1)

/-- The body of the `for i, chunk in enumerate(chunks)` loop for one chunk. -/
def chunkFor (filename : String) (image_paths : List String) (tables_data : List TableRec)
    (i : Nat) (chunk : String) : ChunkRec :=
  let chunk_images := image_paths.filter (fun p => substrB (pathName p) chunk)
  let chunk_tables := tables_data.filter (fun td => substrB (tableRef filename td) chunk)
  ⟨chunk, ⟨filename, i, chunk_images, chunk_tables⟩⟩

def linkLoop (filename : String) (ips : List String) (tds : List TableRec) :
    Nat → List String → List ChunkRec
  | _, [] => []
  | i, c :: rest => chunkFor filename ips tds i c :: linkLoop filename ips tds (i + 1) rest

/-- The whole metadata-linking loop of `load_and_split`. -/
def linkChunks (filename : String) (ips : List String) (tds : List TableRec)
    (chunks : List String) : List ChunkRec :=
  linkLoop filename ips tds 0 chunks

/-- The external calls `load_and_split` makes: the advanced PDF extraction
(`none` when `read_pdf_with_images` raised), the fallback `read_pdf` text, the
DOCX/MD/TXT reader outputs, and `RecursiveCharacterTextSplitter.split_text`
already configured with `chunk_size`/`chunk_overlap`. -/
structure Readers where
  pdfAdvanced : Option (List PdfPage)
  pdfFallback : String
  docx : String
  md : String
  txt : String
  split : String → List String

def SUPPORTED_EXTENSIONS : List String := [".pdf", ".docx", ".txt", ".md"]

/-- Embeds `services/ingestion.py: load_and_split` (identical to the root-level
`ingestion.py` copy).  `Except.error` models the raised `ValueError`. -/
def load_and_split (filename : String) (rd : Readers) : Except String (List ChunkRec) :=
  let ext := pyLower (pySplitextExt filename)
  if SUPPORTED_EXTENSIONS.contains ext then
    let r : String × List String × List TableRec :=
      if ext = ".pdf" then
        match rd.pdfAdvanced with
        | some pages => read_pdf_with_images filename pages
        | none => (rd.pdfFallback, [], [])
      else if ext = ".docx" then (rd.docx, [], [])
      else if ext = ".md" then (rd.md, [], [])
      else (rd.txt, [], [])
    Except.ok (linkChunks filename r.2.1 r.2.2 (rd.split r.1))
  else
    Except.error ("Unsupported file type: " ++ ext)

/-! ## Vector-store administration (`services/vectorstore.py`)

The Qdrant client calls are external collaborators; each operation takes the
behaviour of its underlying store call as an `Except` input (`Except.error`
models the call raising). -/

/-- A scrolled point: `payload` may be missing/falsy, the payload may lack the
`"metadata"` key, and the metadata may lack `"source"`. -/
structure ScrollMeta where
  source : Option String
deriving DecidableEq, Repr

structure ScrollPayload where
  metadata : Option ScrollMeta
deriving DecidableEq, Repr

structure ScrollPoint where
  payload : Option ScrollPayload
deriving DecidableEq, Repr

/-- Embeds `if point.payload and "metadata" in point.payload: source = ...get("source");
if source:` — the value collected into the `sources` set, if any (`""` is
falsy). -/
def pointSource (p : ScrollPoint) : Option String :=
  match p.payload with
  | none => none
  | some pl =>
    match pl.metadata with
    | none => none
    | some m =>
      match m.source with
      | none => none
      | some s => if s = "" then none else some s

/-- Embeds `list_sources()`: `sorted(list(set(...)))` of the collected sources; on a
raise from `client.scroll`, log and return `[]`. -/
def list_sources (scroll : Except String (List ScrollPoint)) : List String :=
  match scroll with
  | Except.error _ => []
  | Except.ok points =>
    ((points.filterMap pointSource).dedup).mergeSort (fun a b => a ≤ b)

/-- Embeds `clear_collection()`: `True` on success, `False` when `client.delete`
raises (logged and swallowed). -/
def clear_collection (del : Except String Unit) : Bool :=
  match del with
  | Except.ok _ => true
  | Except.error _ => false

/-- Embeds `delete_by_source(source)`: `result.operation_id if result else 0`.
There is no `try/except` in this function, so a raise from `client.delete`
propagates; `Except.ok none` models a falsy `result`. -/
def delete_by_source (res : Except String (Option Nat)) : Except String Nat :=
  match res with
  | Except.error e => Except.error e
  | Except.ok none => Except.ok 0
  | Except.ok (some opId) => Except.ok opId

/-! ## File router (`routers/file_router.py`) -/

inductive FileType where
  | PDF | DOCX | DOC | TXT | MD | UNKNOWN
deriving DecidableEq, Repr

def FileType.value : FileType → String
  | .PDF => "pdf"
  | .DOCX => "docx"
  | .DOC => "doc"
  | .TXT => "txt"
  | .MD => "md"
  | .UNKNOWN => "unknown"

/-- Embeds `FileRouter.detect_file_type`. -/
def detect_file_type (filename : String) : FileType :=
  let ext := pyLower (pySplitextExt filename)
  if ext = ".pdf" then .PDF
  else if ext = ".docx" then .DOCX
  else if ext = ".doc" then .DOC
  else if ext = ".txt" then .TXT
  else if ext = ".md" then .MD
  else if ext = ".markdown" then .MD
  else .UNKNOWN

/-- Values stored in a `ProcessingResult.metadata` dict. -/
inductive MetaVal where
  | nat (n : Nat)
  | str (s : String)
  | bool (b : Bool)
deriving DecidableEq, Repr

structure ProcessingResult where
  success : Bool
  file_type : FileType
  content : String
  tables : List TableRec
  images : List String
  metadata : List (String × MetaVal)
  error : String
deriving DecidableEq, Repr

/-- Embeds `processing_result.metadata.get(key, default)` for a numeric value. -/
def metaGetNat (m : List (String × MetaVal)) (k : String) (dflt : Nat) : Nat :=
  match m.find? (fun kv => kv.1 = k) with
  | some (_, MetaVal.nat n) => n
  | _ => dflt

/-- A `ProcessingResult` built with only `success`, `file_type` and `error`
(all other constructor arguments defaulted). -/
def failResult (ft : FileType) (err : String) : ProcessingResult :=
  ⟨false, ft, "", [], [], [], err⟩

/-- Embeds `'page_count': text.count('[Trang ') if '[Trang ' in text else 1`. -/
def pageCountMeta (text : String) : Nat :=
  if substrB "[Trang " text then pyCount "[Trang " text else 1

/-- Embeds `FileRouter._handle_pdf`: advanced extraction first, `pypdf` fallback on a
raise, failure when both raise. -/
def handle_pdf (filename : String) (adv : Except String (List PdfPage))
    (fb : Except String String) : ProcessingResult :=
  match adv with
  | Except.ok pages =>
    let r := read_pdf_with_images filename pages
    { success := true, file_type := .PDF, content := r.1, tables := r.2.2, images := r.2.1,
      metadata := [("processing_method", .str "pymupdf_advanced"),
                   ("page_count", .nat (pageCountMeta r.1)),
                   ("has_tables", .bool (decide (0 < r.2.2.length))),
                   ("has_images", .bool (decide (0 < r.2.1.length)))],
      error := "" }
  | Except.error e =>
    match fb with
    | Except.ok text =>
      { success := true, file_type := .PDF, content := text, tables := [], images := [],
        metadata := [("processing_method", .str "pypdf_simple"),
                     ("page_count", .nat (pageCountMeta text)),
                     ("fallback_reason", .str e)],
        error := "" }
    | Except.error e2 =>
      failResult .PDF ("Both PDF processing methods failed: " ++ e2)

/-- Embeds `FileRouter._handle_docx`. -/
def handle_docx (rd : Except String String) : ProcessingResult :=
  match rd with
  | Except.error e => failResult .DOCX ("DOCX processing failed: " ++ e)
  | Except.ok text =>
    if pyBlank text then failResult .DOCX "No text content extracted from DOCX file"
    else
      { success := true, file_type := .DOCX, content := text, tables := [], images := [],
        metadata := [("processing_method", .str "docx2txt"),
                     ("word_count", .nat (pyWords text).length),
                     ("paragraph_count", .nat ((pySplitNN text).filter
                        (fun p => !pyBlank p)).length)],
        error := "" }

/-- Embeds `FileRouter._handle_txt`. -/
def handle_txt (rd : Except String String) : ProcessingResult :=
  match rd with
  | Except.error e => failResult .TXT ("Text processing failed: " ++ e)
  | Except.ok text =>
    if pyBlank text then failResult .TXT "Empty text file"
    else
      { success := true, file_type := .TXT, content := text, tables := [], images := [],
        metadata := [("processing_method", .str "plain_text"),
                     ("line_count", .nat (pySplitChar '\n' text).length),
                     ("word_count", .nat (pyWords text).length),
                     ("character_count", .nat text.length)],
        error := "" }

/-- Embeds `FileRouter._handle_md`; `orig` is `file_bytes.decode('utf-8',
errors='ignore')`. -/
def handle_md (rd : Except String String) (orig : String) : ProcessingResult :=
  match rd with
  | Except.error e => failResult .MD ("Markdown processing failed: " ++ e)
  | Except.ok text =>
    if pyBlank text then failResult .MD "Empty markdown file"
    else
      { success := true, file_type := .MD, content := text, tables := [], images := [],
        metadata := [("processing_method", .str "markdown_parser"),
                     ("header_count", .nat (orig.toList.count '#')),
                     ("link_count", .nat (orig.toList.count '[')),
                     ("code_block_count", .nat (pyCount "```" orig / 2)),
                     ("word_count", .nat (pyWords text).length)],
        error := "" }

/-- The keys of the `self._handlers` dispatch dict (DOC shares the DOCX
handler). -/
inductive HandlerTag where
  | hpdf | hdocx | htxt | hmd
deriving DecidableEq, Repr

/-- Embeds `self._handlers.get(file_type)`. -/
def handlersGet : FileType → Option HandlerTag
  | .PDF => some .hpdf
  | .DOCX => some .hdocx
  | .DOC => some .hdocx
  | .TXT => some .htxt
  | .MD => some .hmd
  | .UNKNOWN => none

/-- Embeds `FileRouter.route_file`, generic in the dispatched handler call: `run h`
is the invocation `handler(filename, file_bytes)`, `Except.error e` modelling
a fault raised inside the handler (caught by the router's `try/except`).
The statistics updates touch only the router's counters, not the returned
result, and are omitted. -/
def route_file_g (filename : String)
    (run : HandlerTag → Except String ProcessingResult) : ProcessingResult :=
  let ft := detect_file_type filename
  if ft = .UNKNOWN then
    failResult ft ("Unsupported file type: " ++ pySplitextExt filename)
  else
    match handlersGet ft with
    | none => failResult ft ("No handler available for " ++ ft.value)
    | some h =>
      match run h with
      | Except.ok r => r
      | Except.error e => failResult ft ("Processing error: " ++ e)

/-- The external reader outcomes the four concrete handlers depend on. -/
structure HandlerInputs where
  pdfAdv : Except String (List PdfPage)
  pdfFb : Except String String
  docx : Except String String
  txt : Except String String
  md : Except String String
  mdOrig : String

def runHandler (filename : String) (hi : HandlerInputs) : HandlerTag → ProcessingResult
  | .hpdf => handle_pdf filename hi.pdfAdv hi.pdfFb
  | .hdocx => handle_docx hi.docx
  | .htxt => handle_txt hi.txt
  | .hmd => handle_md hi.md hi.mdOrig

/-- Embeds `FileRouter.route_file` with the concrete handlers; `raised = some e`
models a fault escaping the invoked handler itself (the concrete handlers
catch their readers' faults, so this is the router's outer safety net). -/
def route_file (filename : String) (hi : HandlerInputs) (raised : Option String) :
    ProcessingResult :=
  route_file_g filename (fun h =>
    match raised with
    | some e => Except.error e
    | none => Except.ok (runHandler filename hi h))

/-! ## Content analyzer (`routers/content_analyzer.py`)

Everything is embedded concretely except the regex pattern matching of
`_analyze_structure`: the total number of `findall` hits over the four
pattern categories is taken as an input function `indicatorsFn` (Python's
`re` engine is an external collaborator).  Floats are modelled as `ℚ`. -/

inductive ContentType where
  | TEXT_ONLY | TEXT_TABLE | TEXT_TABLE_IMAGE | TABLE_ONLY | IMAGE_ONLY
  | MIXED_CONTENT | EMPTY | STRUCTURED_TEXT
deriving DecidableEq, Repr

/-- The metric fields of `_analyze_text_content`. -/
structure TextAnalysis where
  line_count : Nat
  word_count : Nat
  sentence_count : Nat
  character_count : Nat
  alpha_ratio : ℚ
  digit_ratio : ℚ
  space_ratio : ℚ
  avg_word_length : ℚ
  avg_line_length : ℚ
deriving DecidableEq, Repr

/-- Embeds `ContentAnalyzer._analyze_text_content` (non-empty content). -/
def analyze_text_content (content : String) : TextAnalysis :=
  let lines := pySplitChar '\n' content
  let words := pyWords content
  let sentences := (content.toList.splitOnP (fun c => c = '.' || c = '!' || c = '?')).map
    (fun cs => (⟨cs⟩ : String))
  let alpha_chars := content.toList.countP (fun c => c.isAlpha)
  let digit_chars := content.toList.countP (fun c => c.isDigit)
  let space_chars := content.toList.countP (fun c => c.isWhitespace)
  { line_count := lines.length
    word_count := words.length
    sentence_count := (sentences.filter (fun s => !pyBlank s)).length
    character_count := content.length
    alpha_ratio := (alpha_chars : ℚ) / (max content.length 1 : ℚ)
    digit_ratio := (digit_chars : ℚ) / (max content.length 1 : ℚ)
    space_ratio := (space_chars : ℚ) / (max content.length 1 : ℚ)
    avg_word_length := ((words.map String.length).sum : ℚ) / (max words.length 1 : ℚ)
    avg_line_length := ((lines.map String.length).sum : ℚ) / (max lines.length 1 : ℚ) }

/-- Embeds `ContentAnalyzer._analyze_structure`'s `structure_score`: regex hit count
(`indicatorsFn`) normalised by the line count, clamped to 1, boosted ×1.5 for
Markdown. -/
def analyze_structure_score (indicatorsFn : String → Nat) (content : String)
    (ft : FileType) : ℚ :=
  if content = "" then 0
  else
    let total_lines := (pySplitChar '\n' content).length
    let s := min ((indicatorsFn content : ℚ) / (max total_lines 1 : ℚ)) 1
    if ft = .MD then min (s * (3 / 2)) 1 else s

/-- Embeds `ContentAnalyzer._determine_content_type`; `structure_analysis` is the
optional `structure_score` entry (`none` for the empty dict). -/
def determine_content_type (has_text has_tables has_images : Bool)
    (structure_analysis : Option ℚ) : ContentType × ℚ :=
  if !has_text && !has_tables && !has_images then (.EMPTY, 1)
  else if has_text && !has_tables && !has_images then
    let structure_score := structure_analysis.getD 0
    if structure_score > 3 / 10 then (.STRUCTURED_TEXT, 9 / 10)
    else (.TEXT_ONLY, 19 / 20)
  else if has_tables && !has_text && !has_images then (.TABLE_ONLY, 9 / 10)
  else if has_images && !has_text && !has_tables then (.IMAGE_ONLY, 9 / 10)
  else if has_text && has_tables && has_images then (.TEXT_TABLE_IMAGE, 19 / 20)
  else if has_text && has_tables && !has_images then (.TEXT_TABLE, 9 / 10)
  else (.MIXED_CONTENT, 7 / 10)

/-- Embeds `ContentAnalyzer._calculate_text_quality`; `ta = none` models the empty
`text_analysis` dict. -/
def calculate_text_quality (content : String) (ta : Option TextAnalysis) : ℚ :=
  match ta with
  | none => 0
  | some t =>
    if content = "" then 0
    else
      let q0 := t.alpha_ratio
      let q1 := if 3 ≤ t.avg_word_length ∧ t.avg_word_length ≤ 8 then q0 + 1 / 5 else q0
      let q2 := if 50 ≤ t.word_count then q1 + 1 / 10 else q1
      let q3 := if t.avg_word_length < 2 ∨ t.avg_word_length > 15 then q2 - 1 / 5 else q2
      max 0 (min 1 q3)

/-- Embeds `ContentAnalyzer._recommend_processing_strategy`. -/
def recommend_processing_strategy (ct : ContentType) (text_length table_count
    image_count : Nat) (structure_score : ℚ) : Nat × String :=
  let base : Nat × String :=
    match ct with
    | .TEXT_ONLY => (1000, "text_only")
    | .STRUCTURED_TEXT => (600, "structure_aware")
    | .TEXT_TABLE => (1200, "table_aware")
    | .TEXT_TABLE_IMAGE => (1500, "multimedia_aware")
    | .TABLE_ONLY => (2000, "table_focused")
    | _ => (800, "standard")
  let cs1 :=
    if text_length < 2000 then min base.1 (text_length / 2)
    else if text_length > 50000 then min (base.1 + 300) 2000
    else base.1
  let cs2 := if table_count > 5 || image_count > 10 then cs1 + 200 else cs1
  (max cs2 200, base.2)

/-- The fields of a `ContentAnalysis` (the nested `metadata` dict of raw
sub-analyses is not modelled; no embedded code reads it back). -/
structure ContentAnalysis where
  content_type : ContentType
  confidence : ℚ
  has_text : Bool
  has_tables : Bool
  has_images : Bool
  has_structure : Bool
  text_length : Nat
  table_count : Nat
  image_count : Nat
  page_count : Nat
  text_quality_score : ℚ
  structure_score : ℚ
  recommended_chunk_size : Nat
  recommended_strategy : String
deriving DecidableEq, Repr

/-- Embeds `ContentAnalyzer.analyze_content`.  The early return for a failed outcome
uses the dataclass defaults for every unset field. -/
def analyze_content (indicatorsFn : String → Nat) (pr : ProcessingResult) :
    ContentAnalysis :=
  if pr.success then
    let content := pr.content
    let has_text := !pyBlank content
    let has_tables := decide (0 < pr.tables.length)
    let has_images := decide (0 < pr.images.length)
    let ta : Option TextAnalysis :=
      if has_text then some (analyze_text_content content) else none
    let sscoreOpt : Option ℚ :=
      if has_text then some (analyze_structure_score indicatorsFn content pr.file_type)
      else none
    let ctc := determine_content_type has_text has_tables has_images sscoreOpt
    let structure_score := sscoreOpt.getD 0
    let rec' := recommend_processing_strategy ctc.1 content.length pr.tables.length
      pr.images.length structure_score
    { content_type := ctc.1
      confidence := ctc.2
      has_text := has_text
      has_tables := has_tables
      has_images := has_images
      has_structure := decide (structure_score > 3 / 10)
      text_length := content.length
      table_count := pr.tables.length
      image_count := pr.images.length
      page_count := metaGetNat pr.metadata "page_count" 1
      text_quality_score := calculate_text_quality content ta
      structure_score := structure_score
      recommended_chunk_size := rec'.1
      recommended_strategy := rec'.2 }
  else
    { content_type := .EMPTY, confidence := 1, has_text := false, has_tables := false,
      has_images := false, has_structure := false, text_length := 0, table_count := 0,
      image_count := 0, page_count := 0, text_quality_score := 0, structure_score := 0,
      recommended_chunk_size := 800, recommended_strategy := "standard" }

/-! ## Concrete evidence inputs -/

/-- The single-page, single-table document used to evidence C1. -/
def c1doc : List PdfPage := [⟨[⟨false, 2, true⟩], "", []⟩]

/-- A trivial `Readers` record for closed evaluations. -/
def trivialReaders : Readers := ⟨none, "", "", "", "", fun _ => []⟩

/-- The two-page document refuting C10 as stated: page 1 yields text and one
table, page 2 is blank. -/
def c10doc : List PdfPage := [⟨[⟨false, 2, true⟩], "hello", []⟩, ⟨[], "", []⟩]

/-! ## General helper lemmas -/

theorem infixB_correct (n : List Char) : ∀ h : List Char, infixB n h = true ↔ n <:+: h
  | [] => by
    simp [infixB, List.isEmpty_iff]
  | c :: rest => by
    simp [infixB, List.infix_cons_iff, List.isPrefixOf_iff_prefix,
      infixB_correct n rest]

theorem substrB_iff (needle hay : String) :
    substrB needle hay = true ↔ needle.toList <:+: hay.toList :=
  infixB_correct _ _

theorem pyCountAux_eq_drop (needle : List Char) :
    ∀ (l : List Char) (k : Nat), pyCountAux needle l k = pyCountList needle (l.drop k)
  | [], k => by simp [pyCountAux, pyCountList]
  | c :: rest, 0 => by simp [pyCountList]
  | c :: rest, k + 1 => by
    simp only [pyCountAux, List.drop_succ_cons]
    exact pyCountAux_eq_drop needle rest k

/-- The defining one-step unfolding of Python's greedy count. -/
theorem pyCountList_cons (needle : List Char) (c : Char) (rest : List Char) :
    pyCountList needle (c :: rest) =
      if needle.isPrefixOf (c :: rest) then
        pyCountList needle (rest.drop (needle.length - 1)) + 1
      else pyCountList needle rest := by
  simp only [pyCountList, pyCountAux]
  split
  · rw [pyCountAux_eq_drop]; rfl
  · rfl

theorem pyCountList_nil (needle : List Char) : pyCountList needle [] = 0 := rfl

theorem str_append_ne_empty {s : String} (t : String) (hs : s ≠ "") : s ++ t ≠ "" := by
  intro h
  apply hs
  have hd : (s ++ t).data = ("" : String).data := congrArg String.data h
  rw [String.data_append] at hd
  exact String.ext (List.append_eq_nil.mp hd).1

theorem substrB_of_suffix (s e : String) : substrB e (s ++ e) = true :=
  (substrB_iff e (s ++ e)).mpr
    (by rw [show (s ++ e).toList = s.toList ++ e.toList from rfl]
        exact (List.suffix_append _ _).isInfix)


/-! ## Claim C1 -/


/-- C1: the claim states that the back-reference token the linker
reconstructs is identical to the token the extractor embedded, so a table
token lying wholly inside one chunk attaches the table there.  In the code
the extractor embeds `{filename}_page…_table…` (full filename) while the
linker searches for `{stem}_page…_table…`: for `doc.pdf` with one extracted
table, the whole extracted text is one chunk containing the full token, yet
the reconstructed reference is not a substring of it and no table is
attached. -/
theorem tableToken_stem_mismatch :
    (read_pdf_with_images "doc.pdf" c1doc).1 = "[Trang 1] Bảng 1: doc.pdf_page1_table1" ∧
    (read_pdf_with_images "doc.pdf" c1doc).2.2 = [⟨1, 0⟩] ∧
    tableRef "doc.pdf" ⟨1, 0⟩ = "doc_page1_table1" ∧
    substrB (tableRef "doc.pdf" ⟨1, 0⟩) (read_pdf_with_images "doc.pdf" c1doc).1 = false ∧
    linkChunks "doc.pdf" (read_pdf_with_images "doc.pdf" c1doc).2.1
        (read_pdf_with_images "doc.pdf" c1doc).2.2 [(read_pdf_with_images "doc.pdf" c1doc).1] =
      [⟨"[Trang 1] Bảng 1: doc.pdf_page1_table1", ⟨"doc.pdf", 0, [], []⟩⟩] := by
  refine ⟨rfl, rfl, rfl, by decide, by decide⟩

/-! ## Claim C3 -/

/-- C3 counterexample: the claim states `deleteBySource` swallows a
provider-level fault and returns zero; in the code `delete_by_source` has no
`try/except`, so the fault propagates and zero is not returned. -/
theorem delete_by_source_propagates :
    delete_by_source (Except.error "provider fault") = Except.error "provider fault" ∧
    delete_by_source (Except.error "provider fault") ≠ Except.ok 0 :=
  ⟨rfl, fun h => nomatch h⟩

/-- C3 (amended): `list_sources` swallows a provider fault and returns `[]`,
`clear_collection` swallows it and returns `False`; `delete_by_source`
propagates the fault, and returns zero exactly when the provider call
returned a falsy result. -/
theorem admin_ops_fault_behavior (e : String) :
    list_sources (Except.error e) = [] ∧
    clear_collection (Except.error e) = false ∧
    delete_by_source (Except.error e) = Except.error e ∧
    delete_by_source (Except.ok none) = Except.ok 0 :=
  ⟨rfl, rfl, rfl, rfl⟩

/-! ## Claim C4 -/


/-- C4 counterexample: the claim's supported set includes `.doc` and
`.markdown`, but `load_and_split` raises `ValueError("Unsupported file type:
.doc")` for a `.doc` filename. -/
theorem load_and_split_rejects_doc :
    load_and_split "a.doc" trivialReaders = Except.error "Unsupported file type: .doc" ∧
    load_and_split "a.markdown" trivialReaders =
      Except.error "Unsupported file type: .markdown" := ⟨rfl, rfl⟩

/-- C4 (amended): `load_and_split` raises a `ValueError` carrying the
lower-cased extension iff that extension is outside `{.pdf, .docx, .txt,
.md}` (the set in `services/ingestion.py`, which omits `.doc` and
`.markdown`); for every extension in that set it proceeds and returns a
result. -/
theorem load_and_split_unsupported_iff (filename : String) (rd : Readers) :
    (load_and_split filename rd =
        Except.error ("Unsupported file type: " ++ pyLower (pySplitextExt filename)) ↔
      pyLower (pySplitextExt filename) ∉ SUPPORTED_EXTENSIONS) ∧
    (pyLower (pySplitextExt filename) ∈ SUPPORTED_EXTENSIONS →
      ∃ res, load_and_split filename rd = Except.ok res) := by
  unfold load_and_split
  by_cases h : pyLower (pySplitextExt filename) ∈ SUPPORTED_EXTENSIONS <;> simp [h]

/-- Witness for C4's amended theorem at a concrete supported input. -/
theorem load_and_split_unsupported_iff_witness :
    ∃ res, load_and_split "b.txt" trivialReaders = Except.ok res :=
  (load_and_split_unsupported_iff "b.txt" trivialReaders).2 (by decide)

/-! ## Claim C8 -/

/-- C8: for `TABLE_ONLY` content with `text_length = 100`, at most 5 tables
and at most 10 images, the recommendation pipeline (base 2000, shrink to
`min(2000, 100 // 2) = 50`, no density bonus, floor at 200) returns exactly
`(200, "table_focused")`. -/
theorem recommend_table_only_small (t i : Nat) (s : ℚ) (ht : t ≤ 5) (hi : i ≤ 10) :
    recommend_processing_strategy .TABLE_ONLY 100 t i s = (200, "table_focused") := by
  unfold recommend_processing_strategy
  have h1 : ¬ (5 < t) := Nat.not_lt.mpr ht
  have h2 : ¬ (10 < i) := Nat.not_lt.mpr hi
  simp [h1, h2]

/-- Witness for C8 at `t = 0`, `i = 0`, `s = 0`. -/
theorem recommend_table_only_small_witness :
    recommend_processing_strategy .TABLE_ONLY 100 0 0 0 = (200, "table_focused") :=
  recommend_table_only_small 0 0 0 (by decide) (by decide)

/-! ## Claims C2 and C9 -/

theorem linkLoop_getElem (f : String) (ips : List String) (tds : List TableRec) :
    ∀ (chunks : List String) (j i : Nat) (r : ChunkRec),
      (linkLoop f ips tds j chunks)[i]? = some r →
      ∃ c, chunks[i]? = some c ∧ r = chunkFor f ips tds (j + i) c
  | [], _, _, _ => by simp [linkLoop]
  | c :: rest, j, 0, r => by
    simp only [linkLoop, List.getElem?_cons_zero, Option.some.injEq]
    intro h
    exact ⟨c, rfl, h.symm⟩
  | c :: rest, j, i + 1, r => by
    simp only [linkLoop, List.getElem?_cons_succ]
    intro h
    obtain ⟨c', hc, hr⟩ := linkLoop_getElem f ips tds rest (j + 1) i r h
    exact ⟨c', hc, by rw [hr, Nat.add_assoc, Nat.add_comm 1 i]⟩

/-- C2: in the linking loop of `load_and_split`, an artifact is attached to a
chunk's metadata exactly when its reference string — the stem-based
`table_ref` for a table, the image filename for an image — is a literal
substring of that chunk's content.  Hence a token absent from both sides of a
chunk boundary links to neither adjacent chunk, a token contained in a chunk
links to it, and (the membership `iff` holding for every chunk index) there
is no deduplication across chunks. -/
theorem linkChunks_attach_iff (f : String) (ips : List String) (tds : List TableRec)
    (chunks : List String) (i : Nat) (c : String) (r : ChunkRec)
    (hc : chunks[i]? = some c) (hr : (linkChunks f ips tds chunks)[i]? = some r) :
    (∀ td, td ∈ r.metadata.tables ↔ td ∈ tds ∧ substrB (tableRef f td) c = true) ∧
    (∀ p, p ∈ r.metadata.images ↔ p ∈ ips ∧ substrB (pathName p) c = true) ∧
    r.content = c := by
  obtain ⟨c', hc', hrr⟩ := linkLoop_getElem f ips tds chunks 0 i r hr
  rw [hc] at hc'
  cases hc'
  subst hrr
  refine ⟨fun td => ?_, fun p => ?_, rfl⟩
  · simp [chunkFor, List.mem_filter]
  · simp [chunkFor, List.mem_filter]

/-- Witness for C2: a chunk containing the stem-based table reference of
`doc.pdf`'s page-1 table attaches that table; the image path does not occur
and is not attached. -/
theorem linkChunks_attach_iff_witness :
    ((⟨1, 0⟩ : TableRec) ∈
        (⟨"xx doc_page1_table1 yy", ⟨"doc.pdf", 0, [],
            [⟨1, 0⟩]⟩⟩ : ChunkRec).metadata.tables ↔
      (⟨1, 0⟩ : TableRec) ∈ [(⟨1, 0⟩ : TableRec)] ∧
        substrB (tableRef "doc.pdf" ⟨1, 0⟩) "xx doc_page1_table1 yy" = true) :=
  (linkChunks_attach_iff "doc.pdf" ["extracted_images/doc_page1_img1.png"] [⟨1, 0⟩]
    ["xx doc_page1_table1 yy", "zz"] 0 "xx doc_page1_table1 yy"
    ⟨"xx doc_page1_table1 yy", ⟨"doc.pdf", 0, [], [⟨1, 0⟩]⟩⟩
    rfl (by decide)).1 ⟨1, 0⟩

/-- C9: every successful `load_and_split` call returns chunks whose metadata
carries `source = filename` and `chunk = i` for the chunk at position `i`, so
chunk indices are zero-based, contiguous and in production order — the
`[source=S, chunk=N]` citation contract. -/
theorem load_and_split_chunk_indexing (filename : String) (rd : Readers)
    (res : List ChunkRec) (i : Nat) (r : ChunkRec)
    (hok : load_and_split filename rd = Except.ok res) (hi : res[i]? = some r) :
    r.metadata.source = filename ∧ r.metadata.chunk = i := by
  unfold load_and_split at hok
  by_cases h : pyLower (pySplitextExt filename) ∈ SUPPORTED_EXTENSIONS
  · rw [if_pos (by simpa using h)] at hok
    injection hok with hok
    subst hok
    obtain ⟨c, _, hrr⟩ := linkLoop_getElem filename _ _ _ 0 i r hi
    subst hrr
    exact ⟨rfl, by simp [chunkFor]⟩
  · simp [h] at hok

/-- Witness for C9 at a concrete two-chunk call. -/
theorem load_and_split_chunk_indexing_witness :
    (⟨"b", ⟨"w.txt", 1, [], []⟩⟩ : ChunkRec).metadata.source = "w.txt" ∧
    (⟨"b", ⟨"w.txt", 1, [], []⟩⟩ : ChunkRec).metadata.chunk = 1 :=
  load_and_split_chunk_indexing "w.txt" ⟨none, "", "", "", "t", fun _ => ["a", "b"]⟩
    [⟨"a", ⟨"w.txt", 0, [], []⟩⟩, ⟨"b", ⟨"w.txt", 1, [], []⟩⟩] 1
    ⟨"b", ⟨"w.txt", 1, [], []⟩⟩ rfl rfl

/-! ## Claims C5 and C6 -/

/-- C5: `route_file` is a total function into `ProcessingResult` (the model
encodes that the router boundary never raises), and whenever the dispatched
handler call raises a fault `e`, the router converts it into a failed result
whose error field contains the fault message. -/
theorem route_file_converts_handler_fault (filename : String)
    (run : HandlerTag → Except String ProcessingResult) (e : String) (h : HandlerTag)
    (hft : detect_file_type filename ≠ .UNKNOWN)
    (hh : handlersGet (detect_file_type filename) = some h)
    (hrun : run h = Except.error e) :
    (route_file_g filename run).success = false ∧
    (route_file_g filename run).error = "Processing error: " ++ e ∧
    substrB e ((route_file_g filename run).error) = true := by
  unfold route_file_g
  rw [if_neg hft, hh]
  simp only [hrun]
  exact ⟨rfl, rfl, substrB_of_suffix "Processing error: " e⟩

/-- Witness for C5: a handler fault on a `.pdf` file. -/
theorem route_file_converts_handler_fault_witness :
    (route_file_g "a.pdf" (fun _ => Except.error "boom")).success = false ∧
    (route_file_g "a.pdf" (fun _ => Except.error "boom")).error =
      "Processing error: " ++ "boom" ∧
    substrB "boom" ((route_file_g "a.pdf" (fun _ => Except.error "boom")).error) = true :=
  route_file_converts_handler_fault "a.pdf" (fun _ => Except.error "boom") "boom"
    .hpdf (by decide) (by decide) rfl

theorem handle_pdf_inv (f : String) (adv : Except String (List PdfPage))
    (fb : Except String String) (hf : (handle_pdf f adv fb).success = false) :
    (handle_pdf f adv fb).content = "" ∧ (handle_pdf f adv fb).error ≠ "" := by
  unfold handle_pdf at *
  cases adv with
  | ok pages => simp at hf
  | error e =>
    cases fb with
    | ok t => simp at hf
    | error e2 => exact ⟨rfl, str_append_ne_empty _ (by decide)⟩

theorem handle_docx_inv (rd : Except String String)
    (hf : (handle_docx rd).success = false) :
    (handle_docx rd).content = "" ∧ (handle_docx rd).error ≠ "" := by
  unfold handle_docx at *
  cases rd with
  | error e => exact ⟨rfl, str_append_ne_empty _ (by decide)⟩
  | ok t =>
    by_cases hb : pyBlank t
    · simp only [hb, if_pos]
      exact ⟨rfl, by decide⟩
    · simp [hb] at hf

theorem handle_txt_inv (rd : Except String String)
    (hf : (handle_txt rd).success = false) :
    (handle_txt rd).content = "" ∧ (handle_txt rd).error ≠ "" := by
  unfold handle_txt at *
  cases rd with
  | error e => exact ⟨rfl, str_append_ne_empty _ (by decide)⟩
  | ok t =>
    by_cases hb : pyBlank t
    · simp only [hb, if_pos]
      exact ⟨rfl, by decide⟩
    · simp [hb] at hf

theorem handle_md_inv (rd : Except String String) (orig : String)
    (hf : (handle_md rd orig).success = false) :
    (handle_md rd orig).content = "" ∧ (handle_md rd orig).error ≠ "" := by
  unfold handle_md at *
  cases rd with
  | error e => exact ⟨rfl, str_append_ne_empty _ (by decide)⟩
  | ok t =>
    by_cases hb : pyBlank t
    · simp only [hb, if_pos]
      exact ⟨rfl, by decide⟩
    · simp [hb] at hf

/-- C6: every `ProcessingResult` that `route_file` returns with
`success = false` has empty content and a non-empty error, on every failure
path: unknown extension, missing handler, handler-reported failure, and a
fault caught by the router's `try/except`. -/
theorem route_file_g_inv (filename : String)
    (run : HandlerTag → Except String ProcessingResult)
    (hrun : ∀ h r, run h = Except.ok r → r.success = false →
      r.content = "" ∧ r.error ≠ "") :
    (route_file_g filename run).success = false →
    (route_file_g filename run).content = "" ∧ (route_file_g filename run).error ≠ "" := by
  unfold route_file_g
  dsimp only
  split
  · exact fun _ => ⟨rfl, str_append_ne_empty _ (by decide)⟩
  · split
    · exact fun _ => ⟨rfl, str_append_ne_empty _ (by decide)⟩
    · split
      · rename_i hr
        exact fun hf => hrun _ _ hr hf
      · exact fun _ => ⟨rfl, str_append_ne_empty _ (by decide)⟩

theorem route_file_failure_invariant (filename : String) (hi : HandlerInputs)
    (raised : Option String)
    (hf : (route_file filename hi raised).success = false) :
    (route_file filename hi raised).content = "" ∧
    (route_file filename hi raised).error ≠ "" := by
  refine route_file_g_inv filename _ ?_ hf
  intro h r hok hf'
  cases raised with
  | some e => simp at hok
  | none =>
    injection hok with hok
    subst hok
    cases h with
    | hpdf => exact handle_pdf_inv filename hi.pdfAdv hi.pdfFb hf'
    | hdocx => exact handle_docx_inv hi.docx hf'
    | htxt => exact handle_txt_inv hi.txt hf'
    | hmd => exact handle_md_inv hi.md hi.mdOrig hf'

/-- Witness for C6 on the unknown-extension path. -/
theorem route_file_failure_invariant_witness :
    (route_file "x.zip" ⟨Except.ok [], Except.ok "", Except.ok "", Except.ok "",
        Except.ok "", ""⟩ none).content = "" ∧
    (route_file "x.zip" ⟨Except.ok [], Except.ok "", Except.ok "", Except.ok "",
        Except.ok "", ""⟩ none).error ≠ "" :=
  route_file_failure_invariant "x.zip"
    ⟨Except.ok [], Except.ok "", Except.ok "", Except.ok "", Except.ok "", ""⟩ none
    (by decide)

/-! ## Claim C7 -/

/-- C7: `analyze_content` on a failed outcome returns `EMPTY` with confidence
1.0; on a successful outcome with non-blank text, no tables and no images it
returns `STRUCTURED_TEXT` with confidence 0.9 when the computed structure
score exceeds 0.3, and `TEXT_ONLY` with confidence 0.95 otherwise. -/
theorem analyze_content_classification (indicatorsFn : String → Nat)
    (pr : ProcessingResult) :
    (pr.success = false →
      (analyze_content indicatorsFn pr).content_type = .EMPTY ∧
      (analyze_content indicatorsFn pr).confidence = 1) ∧
    (pr.success = true → pyBlank pr.content = false → pr.tables = [] → pr.images = [] →
      (analyze_content indicatorsFn pr).content_type =
        (if analyze_structure_score indicatorsFn pr.content pr.file_type > 3 / 10 then
          ContentType.STRUCTURED_TEXT else ContentType.TEXT_ONLY) ∧
      (analyze_content indicatorsFn pr).confidence =
        (if analyze_structure_score indicatorsFn pr.content pr.file_type > 3 / 10 then
          ((9 : ℚ) / 10) else ((19 : ℚ) / 20))) := by
  constructor
  · intro hfail
    simp [analyze_content, hfail]
  · intro hs hb ht hi
    simp only [analyze_content, hs, if_pos, hb, ht, hi, Bool.not_false, List.length_nil,
      Nat.lt_irrefl, decide_False, determine_content_type, Bool.not_true, Bool.false_and,
      Bool.and_false, Bool.true_and, Bool.and_self, Option.getD_some, if_true, if_false,
      Bool.false_eq_true, ite_false, ite_true]
    split <;> simp_all

/-- Witness for C7 on a failed outcome and on a successful text-only
outcome. -/
theorem analyze_content_classification_witness :
    ((analyze_content (fun _ => 2) ⟨false, .TXT, "", [], [], [], "x"⟩).content_type =
        ContentType.EMPTY ∧
      (analyze_content (fun _ => 2) ⟨false, .TXT, "", [], [], [], "x"⟩).confidence = 1) ∧
    ((analyze_content (fun _ => 2) ⟨true, .TXT, "ab", [], [], [], ""⟩).content_type =
        (if analyze_structure_score (fun _ => 2) "ab" FileType.TXT > 3 / 10 then
          ContentType.STRUCTURED_TEXT else ContentType.TEXT_ONLY)) :=
  ⟨(analyze_content_classification (fun _ => 2) ⟨false, .TXT, "", [], [], [], "x"⟩).1 rfl,
    ((analyze_content_classification (fun _ => 2)
      ⟨true, .TXT, "ab", [], [], [], ""⟩).2 rfl (by decide) rfl rfl).1⟩

/-! ## Claim C10: counting `'[Trang '` occurrences -/

theorem prefix_stop_before_newline :
    ∀ (needle s t : List Char), needle <+: (s ++ '\n' :: t) →
      (∀ c ∈ needle, c ≠ '\n') → needle <+: s ∧ needle.length ≤ s.length
  | [], s, t, _, _ => ⟨List.nil_prefix, Nat.zero_le _⟩
  | c :: nd, [], t, hp, hn => by
    rw [List.nil_append, List.cons_prefix_cons] at hp
    exact absurd hp.1 (hn c (List.mem_cons_self c nd))
  | c :: nd, a :: s', t, hp, hn => by
    rw [List.cons_append, List.cons_prefix_cons] at hp
    obtain ⟨h1, h2⟩ := prefix_stop_before_newline nd s' t hp.2
      (fun x hx => hn x (List.mem_cons_of_mem c hx))
    exact ⟨List.cons_prefix_cons.mpr ⟨hp.1, h1⟩, Nat.succ_le_succ h2⟩

theorem isPrefixOf_newline_false (needle : List Char) (hne : needle ≠ [])
    (hnl : ∀ c ∈ needle, c ≠ '\n') (l : List Char) :
    needle.isPrefixOf ('\n' :: l) = false := by
  cases hpf : needle.isPrefixOf ('\n' :: l) with
  | false => rfl
  | true =>
    exfalso
    have hp := List.isPrefixOf_iff_prefix.mp hpf
    cases needle with
    | nil => exact hne rfl
    | cons c nd =>
      rw [List.cons_prefix_cons] at hp
      exact hnl c (List.mem_cons_self c nd) hp.1

/-- Greedy count of a needle-prefixed string: one match at position 0, then
continue after the needle. -/
theorem pyCount_cons_self (needle x : List Char) (hne : needle ≠ []) :
    pyCountList needle (needle ++ x) = pyCountList needle x + 1 := by
  cases needle with
  | nil => exact absurd rfl hne
  | cons n0 nd =>
    rw [List.cons_append, pyCountList_cons,
      if_pos (List.isPrefixOf_iff_prefix.mpr ⟨x, by simp⟩)]
    simp only [List.length_cons, Nat.add_sub_cancel, List.drop_left]

/-- Prepending text and a blank-line separator never loses occurrences of a
newline-free needle. -/
theorem pyCount_prepend_ge (needle : List Char) (hne : needle ≠ [])
    (hnl : ∀ c ∈ needle, c ≠ '\n') (s h : List Char) :
    pyCountList needle h ≤ pyCountList needle (s ++ '\n' :: '\n' :: h) := by
  have main : ∀ (n : Nat) (s : List Char), s.length ≤ n →
      pyCountList needle h ≤ pyCountList needle (s ++ '\n' :: '\n' :: h) := by
    intro n
    induction n with
    | zero =>
      intro s hs
      have hnil : s = [] := List.eq_nil_of_length_eq_zero (Nat.le_zero.mp hs)
      subst hnil
      rw [List.nil_append, pyCountList_cons, if_neg (by
          rw [isPrefixOf_newline_false needle hne hnl]; exact Bool.false_ne_true),
        pyCountList_cons, if_neg (by
          rw [isPrefixOf_newline_false needle hne hnl]; exact Bool.false_ne_true)]
    | succ n ih =>
      intro s hs
      cases s with
      | nil =>
        rw [List.nil_append, pyCountList_cons, if_neg (by
            rw [isPrefixOf_newline_false needle hne hnl]; exact Bool.false_ne_true),
          pyCountList_cons, if_neg (by
            rw [isPrefixOf_newline_false needle hne hnl]; exact Bool.false_ne_true)]
      | cons c s' =>
        rw [List.cons_append, pyCountList_cons]
        by_cases hp : needle.isPrefixOf (c :: (s' ++ '\n' :: '\n' :: h))
        · rw [if_pos hp]
          have hpre := List.isPrefixOf_iff_prefix.mp hp
          have h2 : needle <+: (c :: s') ++ '\n' :: ('\n' :: h) := by simpa using hpre
          obtain ⟨_, hlen⟩ := prefix_stop_before_newline needle (c :: s') ('\n' :: h) h2 hnl
          have hle : needle.length - 1 ≤ s'.length := by
            simp only [List.length_cons] at hlen
            omega
          rw [List.drop_append_of_le_length hle]
          have hrec := ih (s'.drop (needle.length - 1)) (by
            simp only [List.length_drop]
            simp only [List.length_cons] at hs
            omega)
          omega
        · rw [if_neg hp]
          exact ih s' (by
            simp only [List.length_cons] at hs
            omega)
  exact main s.length s (Nat.le_refl _)

/-- Each piece of a `"\n\n"`-join that starts with a newline-free needle
contributes at least one greedy match. -/
theorem pyCount_join_ge (needle : List Char) (hne : needle ≠ [])
    (hnl : ∀ c ∈ needle, c ≠ '\n') :
    ∀ texts : List String, (∀ e ∈ texts, needle <+: e.toList) →
      texts.length ≤ pyCountList needle (pyJoin "\n\n" texts).toList
  | [], _ => by simp [pyJoin, pyCountList, pyCountAux]
  | [x], hp => by
    obtain ⟨u, hu⟩ := hp x (List.mem_singleton.mpr rfl)
    simp only [pyJoin, List.length_singleton]
    rw [← hu, pyCount_cons_self needle u hne]
    omega
  | x :: y :: rest, hp => by
    have hrec := pyCount_join_ge needle hne hnl (y :: rest)
      (fun e he => hp e (List.mem_cons_of_mem x he))
    obtain ⟨u, hu⟩ := hp x (List.mem_cons_self x (y :: rest))
    have hjoin : (pyJoin "\n\n" (x :: y :: rest)).toList =
        needle ++ (u ++ '\n' :: '\n' :: (pyJoin "\n\n" (y :: rest)).toList) := by
      show (x ++ "\n\n" ++ pyJoin "\n\n" (y :: rest)).toList = _
      rw [show (x ++ "\n\n" ++ pyJoin "\n\n" (y :: rest)).toList =
        x.toList ++ ('\n' :: '\n' :: []) ++ (pyJoin "\n\n" (y :: rest)).toList from rfl, ← hu]
      simp
    rw [hjoin, pyCount_cons_self needle _ hne]
    have hpre := pyCount_prepend_ge needle hne hnl u (pyJoin "\n\n" (y :: rest)).toList
    simp only [List.length_cons] at hrec ⊢
    omega

/-! ## Claim C10: the shape of the advanced extractor's text entries -/

theorem str_prefix_toList (a b : String) : a.toList <+: (a ++ b).toList := by
  rw [show (a ++ b).toList = a.toList ++ b.toList from rfl]
  exact List.prefix_append _ _

theorem prefix_append_right {a : List Char} {s : String} (t : String)
    (h : a <+: s.toList) : a <+: (s ++ t).toList :=
  h.trans (str_prefix_toList s t)

theorem tableToken_starts (f : String) (pn ti : Nat) :
    "[Trang ".toList <+: (tableToken f pn ti).toList := by
  unfold tableToken
  repeat apply prefix_append_right
  exact List.prefix_rfl

theorem imageToken_starts (pn : Nat) (nm : String) :
    "[Trang ".toList <+: (imageToken pn nm).toList := by
  unfold imageToken
  repeat apply prefix_append_right
  exact List.prefix_rfl

theorem pageTextEntry_starts (pn : Nat) (t : String) :
    "[Trang ".toList <+: (pageTextEntry pn t).toList := by
  unfold pageTextEntry
  repeat apply prefix_append_right
  exact List.prefix_rfl

theorem tablesLoop_starts (f : String) (pn : Nat) :
    ∀ (ti : Nat) (ts : List PageTable) (e : String), e ∈ (tablesLoop f pn ti ts).1 →
      "[Trang ".toList <+: e.toList
  | _, [], _ => by simp [tablesLoop]
  | ti, t :: rest, e => by
    simp only [tablesLoop]
    split
    · intro he
      rcases List.mem_cons.mp he with h | h
      · subst h; exact tableToken_starts f pn ti
      · exact tablesLoop_starts f pn (ti + 1) rest e h
    · exact tablesLoop_starts f pn (ti + 1) rest e

theorem imagesLoop_starts (f : String) (pn : Nat) :
    ∀ (ii : Nat) (ims : List PageImage) (e : String), e ∈ (imagesLoop f pn ii ims).1 →
      "[Trang ".toList <+: e.toList
  | _, [], _ => by simp [imagesLoop]
  | ii, im :: rest, e => by
    simp only [imagesLoop]
    split
    · intro he
      rcases List.mem_cons.mp he with h | h
      · subst h; exact imageToken_starts pn _
      · exact imagesLoop_starts f pn (ii + 1) rest e h
    · exact imagesLoop_starts f pn (ii + 1) rest e

theorem pageEntries_starts (f : String) (pn : Nat) (pg : PdfPage) (e : String)
    (he : e ∈ (pageEntries f pn pg).1) : "[Trang ".toList <+: e.toList := by
  unfold pageEntries at he
  simp only [List.mem_append] at he
  rcases he with (h | h) | h
  · exact tablesLoop_starts f pn 0 pg.tables e h
  · by_cases hb : pyBlank pg.text
    · simp [hb] at h
    · rw [if_neg hb] at h
      have := List.mem_singleton.mp h
      subst this
      exact pageTextEntry_starts pn pg.text
  · exact imagesLoop_starts f pn 0 pg.images e h

theorem extractPages_starts (f : String) :
    ∀ (pn : Nat) (doc : List PdfPage) (e : String), e ∈ (extractPages f pn doc).1 →
      "[Trang ".toList <+: e.toList
  | _, [], _ => by simp [extractPages]
  | pn, pg :: rest, e => by
    simp only [extractPages, List.mem_append]
    intro he
    rcases he with h | h
    · exact pageEntries_starts f pn pg e h
    · exact extractPages_starts f (pn + 1) rest e h

theorem tablesLoop_lengths (f : String) (pn : Nat) :
    ∀ (ti : Nat) (ts : List PageTable),
      (tablesLoop f pn ti ts).1.length = (tablesLoop f pn ti ts).2.length
  | _, [] => rfl
  | ti, t :: rest => by
    simp only [tablesLoop]
    split <;> simp [tablesLoop_lengths f pn (ti + 1) rest]

theorem imagesLoop_lengths (f : String) (pn : Nat) :
    ∀ (ii : Nat) (ims : List PageImage),
      (imagesLoop f pn ii ims).1.length = (imagesLoop f pn ii ims).2.length
  | _, [] => rfl
  | ii, im :: rest => by
    simp only [imagesLoop]
    split <;> simp [imagesLoop_lengths f pn (ii + 1) rest]

theorem pageEntries_length (f : String) (pn : Nat) (pg : PdfPage) :
    (pageEntries f pn pg).1.length =
      (pageEntries f pn pg).2.2.length + (pageEntries f pn pg).2.1.length +
        (if pyBlank pg.text then 0 else 1) := by
  unfold pageEntries
  simp only [List.length_append]
  rw [tablesLoop_lengths f pn 0 pg.tables, imagesLoop_lengths f pn 0 pg.images]
  by_cases hb : pyBlank pg.text <;> simp [hb] <;> omega

theorem extractPages_length (f : String) :
    ∀ (pn : Nat) (doc : List PdfPage),
      (extractPages f pn doc).1.length =
        (extractPages f pn doc).2.2.length + (extractPages f pn doc).2.1.length +
          (doc.filter (fun p => !pyBlank p.text)).length
  | _, [] => rfl
  | pn, pg :: rest => by
    simp only [extractPages, List.length_append, List.filter_cons]
    rw [pageEntries_length f pn pg, extractPages_length f (pn + 1) rest]
    by_cases hb : pyBlank pg.text <;> simp [hb] <;> omega

theorem pyJoin_head_starts (x : String) :
    ∀ rest : List String, x.toList <+: (pyJoin "\n\n" (x :: rest)).toList
  | [] => List.prefix_rfl
  | y :: rest => by
    show x.toList <+: (x ++ "\n\n" ++ pyJoin "\n\n" (y :: rest)).toList
    exact prefix_append_right _ (prefix_append_right _ List.prefix_rfl)

/-! ## Claim C10: theorems -/

/-- C10 (amended): on the advanced extraction path, `page_count` is the
number of `'[Trang '` occurrences in the extracted text (1 when absent); it
strictly exceeds the document's page count whenever at least one table or
image artifact was extracted and every page yields non-blank text. -/
theorem advanced_pdf_page_count_exceeds (filename : String) (doc : List PdfPage)
    (fb : Except String String)
    (hall : ∀ p ∈ doc, pyBlank p.text = false)
    (hart : 1 ≤ (read_pdf_with_images filename doc).2.1.length +
      (read_pdf_with_images filename doc).2.2.length) :
    doc.length <
      metaGetNat (handle_pdf filename (Except.ok doc) fb).metadata "page_count" 0 := by
  have hmeta : metaGetNat (handle_pdf filename (Except.ok doc) fb).metadata "page_count" 0 =
      pageCountMeta (read_pdf_with_images filename doc).1 := rfl
  rw [hmeta]
  have hne : ("[Trang ".toList : List Char) ≠ [] := by decide
  have hnl : ∀ c ∈ ("[Trang ".toList : List Char), c ≠ '\n' := by decide
  have hfilter : (doc.filter (fun p => !pyBlank p.text)) = doc :=
    List.filter_eq_self.mpr (fun p hp => by rw [hall p hp]; rfl)
  have hlen := extractPages_length filename 0 doc
  rw [hfilter] at hlen
  have hartlen : doc.length + 1 ≤ (extractPages filename 0 doc).1.length := by
    have : (read_pdf_with_images filename doc).2.1 = (extractPages filename 0 doc).2.1 := rfl
    have h2 : (read_pdf_with_images filename doc).2.2 = (extractPages filename 0 doc).2.2 := rfl
    rw [this, h2] at hart
    omega
  have hcount := pyCount_join_ge "[Trang ".toList hne hnl (extractPages filename 0 doc).1
    (extractPages_starts filename 0 doc)
  cases hE : (extractPages filename 0 doc).1 with
  | nil => rw [hE] at hartlen; simp at hartlen
  | cons e rest =>
    have hpj : (read_pdf_with_images filename doc).1 = pyJoin "\n\n" (e :: rest) := by
      show pyJoin "\n\n" (extractPages filename 0 doc).1 = _
      rw [hE]
    have hpre : "[Trang ".toList <+: (pyJoin "\n\n" (e :: rest)).toList :=
      (extractPages_starts filename 0 doc e (by rw [hE]; exact List.mem_cons_self e rest)).trans
        (pyJoin_head_starts e rest)
    have hsub : substrB "[Trang " (pyJoin "\n\n" (e :: rest)) = true :=
      (substrB_iff _ _).mpr hpre.isInfix
    rw [hpj]
    unfold pageCountMeta
    rw [if_pos hsub]
    show doc.length < pyCountList "[Trang ".toList (pyJoin "\n\n" (e :: rest)).toList
    rw [hE] at hcount hartlen
    omega

/-- Witness for C10's amended theorem: one page with text and one table gives
`page_count = 2 > 1`. -/
theorem advanced_pdf_page_count_exceeds_witness :
    ([⟨[⟨false, 2, true⟩], "hello", []⟩] : List PdfPage).length <
      metaGetNat (handle_pdf "doc.pdf"
        (Except.ok [⟨[⟨false, 2, true⟩], "hello", []⟩]) (Except.error "")).metadata
        "page_count" 0 :=
  advanced_pdf_page_count_exceeds "doc.pdf" [⟨[⟨false, 2, true⟩], "hello", []⟩]
    (Except.error "") (by decide) (by decide)


/-- C10 counterexample: the claim says `page_count` strictly exceeds the
actual page count whenever some artifact comes from a page that also yielded
text.  On `c10doc` one table is extracted from text-yielding page 1, yet
`page_count = 2` equals the two-page document's page count (the blank second
page contributes no occurrence). -/
theorem pageCount_not_exceeding_pages :
    (read_pdf_with_images "doc.pdf" c10doc).2.2 = [⟨1, 0⟩] ∧
    pyBlank "hello" = false ∧
    c10doc.length = 2 ∧
    metaGetNat (handle_pdf "doc.pdf" (Except.ok c10doc) (Except.error "")).metadata
      "page_count" 0 = 2 ∧
    ¬ c10doc.length <
      metaGetNat (handle_pdf "doc.pdf" (Except.ok c10doc) (Except.error "")).metadata
        "page_count" 0 := by
  refine ⟨rfl, rfl, rfl, by decide, by decide⟩

end RagV1
